import Mathlib

/-!
Verification of the sentry-python stdlib integration
(`sentry_sdk/integrations/stdlib.py`): a shallow embedding of the
HTTP-call interceptor (`putrequest` / `getresponse` wrappers), the
process-spawn interceptor (`sentry_patched_popen_init`), the generic
argument extractor (`_init_argument`), the trace-context environment
codec, and the runtime-metadata event processor
(`add_python_runtime_context`), together with theorems settling the
specified properties.

Python dictionaries are modelled as association lists in insertion
order: updating an existing key rewrites it in place, a new key is
appended at the end, exactly as CPython dicts behave.  Python `None`
is modelled by `Option.none` of the value type.
-/

namespace SentryStdlib

/-- Key membership of a Python-dict model (`k in d`). -/
def containsKey {V : Type} : List (String × V) → String → Bool
  | [], _ => false
  | p :: t, k => if p.1 = k then true else containsKey t k

/-- Lookup of a Python-dict model (`d[k]`, first binding wins; a dict
built by `dictSet` has unique keys). -/
def lookupVal {V : Type} : List (String × V) → String → Option V
  | [], _ => none
  | p :: t, k => if p.1 = k then some p.2 else lookupVal t k

/-- Assignment on a Python-dict model (`d[k] = v`): rewrite an existing
binding in place, else append the new binding at the end. -/
def dictSet {V : Type} : List (String × V) → String → V → List (String × V)
  | [], k, v => [(k, v)]
  | p :: t, k, v => if p.1 = k then (k, v) :: t else p :: dictSet t k v

@[simp] theorem containsKey_nil {V : Type} (k : String) :
    containsKey ([] : List (String × V)) k = false := rfl

@[simp] theorem containsKey_cons {V : Type} (p : String × V) (t : List (String × V)) (k : String) :
    containsKey (p :: t) k = if p.1 = k then true else containsKey t k := rfl

@[simp] theorem lookupVal_nil {V : Type} (k : String) :
    lookupVal ([] : List (String × V)) k = none := rfl

@[simp] theorem lookupVal_cons {V : Type} (p : String × V) (t : List (String × V)) (k : String) :
    lookupVal (p :: t) k = if p.1 = k then some p.2 else lookupVal t k := rfl

@[simp] theorem dictSet_nil {V : Type} (k : String) (v : V) :
    dictSet ([] : List (String × V)) k v = [(k, v)] := rfl

@[simp] theorem dictSet_cons {V : Type} (p : String × V) (t : List (String × V)) (k : String) (v : V) :
    dictSet (p :: t) k v = if p.1 = k then (k, v) :: t else p :: dictSet t k v := rfl

theorem dictSet_absent {V : Type} (d : List (String × V)) (k : String) (v : V)
    (h : containsKey d k = false) : dictSet d k v = d ++ [(k, v)] := by
  induction d with
  | nil => rfl
  | cons p t ih =>
    simp only [containsKey_cons] at h
    by_cases hp : p.1 = k
    · simp [hp] at h
    · simp only [dictSet_cons, if_neg hp, List.cons_append]
      rw [ih]
      simpa [hp] using h

theorem dictSet_lookup_self {V : Type} (d : List (String × V)) (k : String) (v : V)
    (h : lookupVal d k = some v) : dictSet d k v = d := by
  induction d with
  | nil => simp at h
  | cons p t ih =>
    simp only [lookupVal_cons] at h
    by_cases hp : p.1 = k
    · simp only [if_pos hp] at h
      obtain ⟨k₁, v₁⟩ := p
      simp only at hp h
      subst hp
      injection h with h
      subst h
      simp [dictSet_cons]
    · simp only [if_neg hp] at h
      simp [dictSet_cons, hp, ih h]

theorem dictSet_dictSet {V : Type} (d : List (String × V)) (k : String) (v w : V) :
    dictSet (dictSet d k v) k w = dictSet d k w := by
  induction d with
  | nil => simp
  | cons p t ih =>
    by_cases hp : p.1 = k
    · simp [dictSet_cons, hp]
    · simp [dictSet_cons, hp, ih]

theorem lookupVal_dictSet_self {V : Type} (d : List (String × V)) (k : String) (v : V) :
    lookupVal (dictSet d k v) k = some v := by
  induction d with
  | nil => simp
  | cons p t ih =>
    by_cases hp : p.1 = k
    · simp [dictSet_cons, hp]
    · simp [dictSet_cons, hp, ih]

theorem containsKey_dictSet_self {V : Type} (d : List (String × V)) (k : String) (v : V) :
    containsKey (dictSet d k v) k = true := by
  induction d with
  | nil => simp
  | cons p t ih =>
    by_cases hp : p.1 = k
    · simp [dictSet_cons, hp]
    · simp [dictSet_cons, hp, ih]

theorem containsKey_append {V : Type} (d₁ d₂ : List (String × V)) (k : String) :
    containsKey (d₁ ++ d₂) k = (containsKey d₁ k || containsKey d₂ k) := by
  induction d₁ with
  | nil => simp
  | cons p t ih =>
    by_cases hp : p.1 = k
    · simp [hp]
    · simp [hp, ih]

theorem dictSet_append_fresh {V : Type} (d : List (String × V)) (k : String) (v w : V)
    (h : containsKey d k = false) : dictSet (d ++ [(k, v)]) k w = d ++ [(k, w)] := by
  induction d with
  | nil => simp
  | cons p t ih =>
    simp only [containsKey_cons] at h
    by_cases hp : p.1 = k
    · simp [hp] at h
    · simp only [List.cons_append, dictSet_cons, if_neg hp]
      rw [ih]
      simpa [hp] using h

theorem lookupVal_append_fresh {V : Type} (d : List (String × V)) (k : String) (v : V)
    (h : containsKey d k = false) : lookupVal (d ++ [(k, v)]) k = some v := by
  induction d with
  | nil => simp
  | cons p t ih =>
    simp only [containsKey_cons] at h
    by_cases hp : p.1 = k
    · simp [hp] at h
    · simp only [List.cons_append, lookupVal_cons, if_neg hp]
      apply ih
      simpa [hp] using h

/-! ## Trace-context environment codec

Encoding side, from stdlib.py line 182: every propagated header
`(k, v)` is written to the child environment under the key
`"SUBPROCESS_" + k.upper().replace("-", "_")`.  Python's `.upper()`
and single-character `.replace` are per-character maps on the string;
the environment built by the loop is a dict updated in insertion
order. -/

/-- Per-character model of Python `str.upper()` (ASCII header names). -/
def pyUpperChar (c : Char) : Char := c.toUpper

/-- Per-character model of `.replace("-", "_")`. -/
def dashToUnderscore (c : Char) : Char := if c = '-' then '_' else c

/-- Character-wise string map. -/
def mapStr (f : Char → Char) (s : String) : String := ⟨s.data.map f⟩

/-- Environment-variable name of a propagated header (stdlib.py line 182):
`"SUBPROCESS_" + k.upper().replace("-", "_")`. -/
def subprocessEnvName (k : String) : String :=
  "SUBPROCESS_" ++ mapStr dashToUnderscore (mapStr pyUpperChar k)

/-- Environment mapping produced by the header-injection loop
(stdlib.py lines 179-182) starting from an empty dict: each header in
turn is assigned under its `subprocessEnvName`. -/
def to_environment_pairs (H : List (String × String)) : List (String × String) :=
  H.foldl (fun env kv => dictSet env (subprocessEnvName kv.1) kv.2) []

/-- Modelled from the spec: the per-character reversal performed by the
environment read view (`EnvironHeaders`, not in src/): lower-case the
name and turn underscores back into dashes ("stripping the prefix and
restoring header-name casing conventions"). -/
def decodeChar (c : Char) : Char := if c.toLower = '_' then '-' else c.toLower

/-- Test whether an environment key carries the `SUBPROCESS_` namespace. -/
def envNameHasNamespace (s : String) : Bool := "SUBPROCESS_".data.isPrefixOf s.data

/-- Strip the 11-character `SUBPROCESS_` namespace token. -/
def stripNamespace (s : String) : String := ⟨s.data.drop 11⟩

/-- Modelled from the spec: `from_environment` = the read view over an
environment restricted to keys with the `SUBPROCESS_` prefix, exposing
them with the prefix stripped and case/format reversed
(`get_subprocess_traceparent_headers` delegates to `EnvironHeaders`,
which is not in src/). -/
def from_environment (env : List (String × String)) : List (String × String) :=
  (env.filter fun kv => envNameHasNamespace kv.1).map
    fun kv => (mapStr decodeChar (stripNamespace kv.1), kv.2)

@[simp] theorem mapStr_data (f : Char → Char) (s : String) :
    (mapStr f s).data = s.data.map f := rfl

theorem string_mk_data (s : String) : String.mk s.data = s := rfl

theorem stripNamespace_subprocessEnvName (k : String) :
    stripNamespace (subprocessEnvName k) = mapStr dashToUnderscore (mapStr pyUpperChar k) := by
  rw [stripNamespace, subprocessEnvName, String.data_append]
  have h11 : ("SUBPROCESS_".data).length = 11 := by decide
  rw [← h11, List.drop_left]

theorem envNameHasNamespace_subprocessEnvName (k : String) :
    envNameHasNamespace (subprocessEnvName k) = true := by
  rw [envNameHasNamespace, subprocessEnvName, String.data_append]
  exact List.isPrefixOf_iff_prefix.mpr (List.prefix_append _ _)

/-- Decoding a produced environment name recovers the header name, for
names whose characters survive the upper/underscore encoding (lower-case
letters, digits and dashes; not underscores or upper-case letters). -/
theorem decode_subprocessEnvName (k : String)
    (h : ∀ c ∈ k.data, decodeChar (dashToUnderscore (pyUpperChar c)) = c) :
    mapStr decodeChar (stripNamespace (subprocessEnvName k)) = k := by
  rw [stripNamespace_subprocessEnvName]
  have : (mapStr decodeChar (mapStr dashToUnderscore (mapStr pyUpperChar k))).data = k.data := by
    simp only [mapStr_data, List.map_map]
    have hcongr : List.map (decodeChar ∘ dashToUnderscore ∘ pyUpperChar) k.data
        = List.map id k.data :=
      List.map_congr_left fun c hc => h c hc
    rw [hcongr, List.map_id]
  calc mapStr decodeChar (mapStr dashToUnderscore (mapStr pyUpperChar k))
      = String.mk (mapStr decodeChar (mapStr dashToUnderscore (mapStr pyUpperChar k))).data :=
        (string_mk_data _).symm
    _ = String.mk k.data := by rw [this]
    _ = k := string_mk_data k

theorem to_env_foldl_fresh (H : List (String × String)) (acc : List (String × String))
    (hfresh : ∀ kv ∈ H, containsKey acc (subprocessEnvName kv.1) = false)
    (hnodup : (H.map fun kv => subprocessEnvName kv.1).Nodup) :
    H.foldl (fun env kv => dictSet env (subprocessEnvName kv.1) kv.2) acc
      = acc ++ H.map (fun kv => (subprocessEnvName kv.1, kv.2)) := by
  induction H generalizing acc with
  | nil => simp
  | cons hd t ih =>
    simp only [List.map_cons, List.nodup_cons] at hnodup
    simp only [List.foldl_cons, List.map_cons]
    rw [dictSet_absent _ _ _ (hfresh hd (by simp))]
    rw [ih]
    · simp
    · intro kv hkv
      rw [containsKey_append]
      simp only [Bool.or_eq_false_iff]
      refine ⟨hfresh kv (List.mem_cons_of_mem _ hkv), ?_⟩
      simp only [containsKey_cons, containsKey_nil]
      have hne : subprocessEnvName hd.1 ≠ subprocessEnvName kv.1 := by
        intro hc
        exact hnodup.1 (List.mem_map.mpr ⟨kv, hkv, hc.symm⟩)
      simp [hne]
    · exact hnodup.2

/-- Claim C1 counterexample: a header name containing an underscore is
not recovered by the round trip — `"a_b"` encodes to
`SUBPROCESS_A_B`, which decodes to `"a-b"`. -/
theorem env_roundtrip_counterexample :
    from_environment (to_environment_pairs [("a_b", "v")]) ≠ [("a_b", "v")] := by
  decide

/-- Claim C1 (amended): each header name is encoded into exactly one
environment variable `SUBPROCESS_<NAME_UPPERCASED_WITH_DASHES_AS_UNDERSCORES>`,
and decoding the environment with that prefix recovers the original
(name, value) pairs, provided the header names are pairwise distinct
and consist only of characters that survive the encoding
(lower-case letters, digits, dashes — no underscores or upper-case). -/
theorem env_roundtrip (H : List (String × String))
    (hchars : ∀ kv ∈ H, ∀ c ∈ kv.1.data, decodeChar (dashToUnderscore (pyUpperChar c)) = c)
    (hnodup : (H.map Prod.fst).Nodup) :
    from_environment (to_environment_pairs H) = H := by
  have hdec : ∀ kv ∈ H, mapStr decodeChar (stripNamespace (subprocessEnvName kv.1)) = kv.1 :=
    fun kv hkv => decode_subprocessEnvName kv.1 (hchars kv hkv)
  have hencodup : (H.map fun kv => subprocessEnvName kv.1).Nodup := by
    have hmm : (H.map fun kv => subprocessEnvName kv.1)
        = (H.map Prod.fst).map subprocessEnvName :=
      (List.map_map subprocessEnvName Prod.fst H).symm
    rw [hmm]
    refine List.Nodup.map_on ?_ hnodup
    intro x hx y hy hxy
    obtain ⟨kx, hkx, hkx1⟩ := List.mem_map.mp hx
    obtain ⟨ky, hky, hky1⟩ := List.mem_map.mp hy
    have hxdec : mapStr decodeChar (stripNamespace (subprocessEnvName x)) = x := by
      rw [← hkx1]; exact hdec kx hkx
    have hydec : mapStr decodeChar (stripNamespace (subprocessEnvName y)) = y := by
      rw [← hky1]; exact hdec ky hky
    rw [← hxdec, ← hydec, hxy]
  rw [to_environment_pairs, to_env_foldl_fresh H [] (fun kv _ => rfl) hencodup]
  rw [List.nil_append, from_environment]
  rw [List.filter_eq_self.mpr]
  · rw [List.map_map]
    have : ∀ kv ∈ H,
        ((fun kv => (mapStr decodeChar (stripNamespace kv.1), kv.2)) ∘
          fun kv => (subprocessEnvName kv.1, kv.2)) kv = id kv := by
      intro kv hkv
      simp only [Function.comp_apply, id_eq]
      obtain ⟨k, v⟩ := kv
      simp only
      rw [hdec (k, v) hkv]
    rw [List.map_congr_left this, List.map_id]
  · intro kv hkv
    obtain ⟨kv₀, hkv₀, hkv₀e⟩ := List.mem_map.mp hkv
    rw [← hkv₀e]
    exact envNameHasNamespace_subprocessEnvName kv₀.1

/-- Witness for the amended C1 at `H = [("sentry-trace", "abc"), ("x-y2", "1")]`. -/
theorem env_roundtrip_witness :
    (∀ kv ∈ [("sentry-trace", "abc"), ("x-y2", "1")],
        ∀ c ∈ (kv : String × String).1.data, decodeChar (dashToUnderscore (pyUpperChar c)) = c) ∧
    (([("sentry-trace", "abc"), ("x-y2", "1")].map Prod.fst).Nodup) ∧
    from_environment (to_environment_pairs [("sentry-trace", "abc"), ("x-y2", "1")])
      = [("sentry-trace", "abc"), ("x-y2", "1")] :=
  ⟨by decide, by decide, env_roundtrip _ (by decide) (by decide)⟩

/-! ## URL reconstruction in the `putrequest` wrapper

Embedding of stdlib.py lines 59-66: the caller-supplied `url` is used
verbatim when it already starts with `"http://"` or `"https://"`;
otherwise the absolute URL is rebuilt from the connection's host, port
and default port.  The Python `and`/`or` idioms
(`default_port == 443 and "https" or "http"`,
`port != default_port and ":%s" % port or ""`) are conditionals on
always-truthy middle operands, hence plain if-then-else here. -/

/-- Test of `url.startswith(("http://", "https://"))`. -/
def hasHttpScheme (u : String) : Bool :=
  "http://".data.isPrefixOf u.data || "https://".data.isPrefixOf u.data

/-- Embedding of the `real_url` computation of the `putrequest` wrapper. -/
def real_url (host : String) (port default_port : Nat) (url : String) : String :=
  if hasHttpScheme url then url
  else
    (if default_port == 443 then "https" else "http") ++ "://" ++ host ++
      (if port != default_port then ":" ++ toString port else "") ++ url

theorem append_ne_empty_of_left_ne_empty (s t : String) (h : s.data ≠ []) :
    s ++ t ≠ "" := by
  intro hc
  apply h
  have hd : (s ++ t).data = ("" : String).data := congrArg String.data hc
  rw [String.data_append] at hd
  have hnil : s.data ++ t.data = [] := hd
  exact (List.append_eq_nil.mp hnil).1

/-- Claim C2: for a relative request url (no `http://`/`https://` scheme
present), the reconstructed span URL is
`scheme ++ "://" ++ host ++ portSeg ++ url`, where the port segment is
omitted exactly when the port equals the connection's default port, and
the scheme is `https` exactly when the default port is 443 (else
`http`). -/
theorem real_url_reconstruction (host url : String) (port default_port : Nat)
    (h : hasHttpScheme url = false) :
    ∃ scheme portSeg : String,
      real_url host port default_port url = scheme ++ "://" ++ host ++ portSeg ++ url ∧
      (scheme = "https" ↔ default_port = 443) ∧
      (scheme = "http" ↔ default_port ≠ 443) ∧
      (portSeg = "" ↔ port = default_port) ∧
      (port ≠ default_port → portSeg = ":" ++ toString port) := by
  refine ⟨if default_port == 443 then "https" else "http",
         if port != default_port then ":" ++ toString port else "", ?_, ?_, ?_, ?_, ?_⟩
  · rw [real_url, if_neg (by simp [h])]
  · by_cases hd : default_port = 443 <;> simp [hd]
  · by_cases hd : default_port = 443 <;> simp [hd]
  · by_cases hp : port = default_port
    · simp [hp]
    · simp only [ne_eq, hp, not_false_eq_true, bne_iff_ne, if_true, iff_false]
      intro hc
      exact append_ne_empty_of_left_ne_empty ":" (toString port) (by decide)
        (by simpa using hc)
  · intro hp
    simp [bne_iff_ne, hp]

/-- Witness for C2 at host `example.com`, port 8080, default port 80,
url `/path`. -/
theorem real_url_reconstruction_witness :
    hasHttpScheme "/path" = false ∧
    ∃ scheme portSeg : String,
      real_url "example.com" 8080 80 "/path" =
        scheme ++ "://" ++ "example.com" ++ portSeg ++ "/path" ∧
      (scheme = "https" ↔ (80 : Nat) = 443) ∧
      (scheme = "http" ↔ (80 : Nat) ≠ 443) ∧
      (portSeg = "" ↔ (8080 : Nat) = 80) ∧
      ((8080 : Nat) ≠ 80 → portSeg = ":" ++ toString (8080 : Nat)) :=
  ⟨by decide, real_url_reconstruction "example.com" "/path" 8080 80 (by decide)⟩

/-- Claim C10: a caller-supplied url that already starts with
`"http://"` or `"https://"` is used verbatim as the span URL, for every
host, port and default port of the connection. -/
theorem real_url_absolute_passthrough (host url : String) (port default_port : Nat)
    (h : hasHttpScheme url = true) :
    real_url host port default_port url = url := by
  rw [real_url, if_pos h]

/-- Witness for C10 at url `http://example.com/path`. -/
theorem real_url_absolute_passthrough_witness :
    hasHttpScheme "http://example.com/path" = true ∧
    real_url "example.com" 8080 80 "http://example.com/path" = "http://example.com/path" :=
  ⟨by decide,
   real_url_absolute_passthrough "example.com" "http://example.com/path" 8080 80 (by decide)⟩

/-! ## HTTP call interceptor (`putrequest` / `getresponse` wrappers)

Embedding of `_install_httplib` (stdlib.py lines 45-114).  The wrapped
primitives (`real_putrequest`, `real_getresponse`, `putheader`) are
external effects; their outcomes are inputs of the model, and the
wrapper's interactions with the recorder (the `record_http_request`
context manager) and the primitives are logged as an event trace.
The connection handle carries the two dynamically attached attributes
`_sentrysdk_recorder` and `_sentrysdk_data_dict` (absent = `none`). -/

/-- Python exceptions, split along the only distinction the wrapper
makes: `TypeError` (the signature-probe class of python-requests)
versus everything else. -/
inductive PyExn where
  | typeError (msg : String)
  | otherExn (msg : String)
deriving DecidableEq

/-- Test of `except TypeError`. -/
def isTypeError : PyExn → Bool
  | .typeError _ => true
  | .otherExn _ => false

/-- The fields of an `httplib` response the wrapper reads. -/
structure HttpResponse where
  status : Nat
  reason : String
deriving DecidableEq

/-- Values stored into the span's auxiliary data dict. -/
inductive DataVal where
  | respVal (r : HttpResponse)
  | natVal (n : Nat)
  | strVal (s : String)
deriving DecidableEq

/-- An `HTTPConnection` handle: the fields the wrappers read plus the
two dynamically attached sentry attributes. -/
structure Conn where
  host : String
  port : Nat
  default_port : Nat
  sentrysdk_recorder : Option Unit
  sentrysdk_data_dict : Option (List (String × DataVal))
deriving DecidableEq

/-- Observable interactions of the wrappers with the recorder and the
wrapped primitives, in execution order. -/
inductive SdkEv where
  | recorderEnter (url method : String)
  | realPutrequest
  | putheader (k v : String)
  | realGetresponse
  | recorderExitErr (e : PyExn)
  | recorderExitOk
deriving DecidableEq

/-- The header-injection loop of the `putrequest` wrapper (lines 74-75):
`self.putheader(key, value)` for each propagation header; `phFail i`
says whether the `i`-th `putheader` call raises.  Returns the emitted
events and the first failure, if any. -/
def runPutheadersAux : List (String × String) → Nat → (Nat → Option PyExn) →
    List SdkEv × Option PyExn
  | [], _, _ => ([], none)
  | kv :: t, i, f =>
    match f i with
    | some e => ([], some e)
    | none =>
      let r := runPutheadersAux t (i + 1) f
      (SdkEv.putheader kv.1 kv.2 :: r.1, r.2)

/-- Embedding of the `putrequest` wrapper (stdlib.py lines 50-83).
`active` is `hub.get_integration(StdlibIntegration) is not None`;
`realResult` is the outcome of the wrapped `real_putrequest` call.
Returns (result or raised exception, updated handle, event trace). -/
def putrequest (active : Bool) (conn : Conn) (method url : String)
    (realResult : Except PyExn Unit) (headers : List (String × String))
    (phFail : Nat → Option PyExn) : Except PyExn Unit × Conn × List SdkEv :=
  if active = false then (realResult, conn, [SdkEv.realPutrequest])
  else
    let rurl := real_url conn.host conn.port conn.default_port url
    match realResult with
    | .error e =>
      (.error e, conn,
        [SdkEv.recorderEnter rurl method, SdkEv.realPutrequest, SdkEv.recorderExitErr e])
    | .ok _ =>
      let ph := runPutheadersAux headers 0 phFail
      match ph.2 with
      | some e =>
        (.error e, conn,
          SdkEv.recorderEnter rurl method :: SdkEv.realPutrequest ::
            (ph.1 ++ [SdkEv.recorderExitErr e]))
      | none =>
        (.ok (),
          { conn with sentrysdk_recorder := some (), sentrysdk_data_dict := some [] },
          SdkEv.recorderEnter rurl method :: SdkEv.realPutrequest :: ph.1)

/-- The three assignments of lines 97-99 into the auxiliary data dict. -/
def recordResponse (d : List (String × DataVal)) (rv : HttpResponse) :
    List (String × DataVal) :=
  dictSet
    (dictSet (dictSet d "httplib_response" (DataVal.respVal rv))
      "status_code" (DataVal.natVal rv.status))
    "reason" (DataVal.strVal rv.reason)

/-- Embedding of the `getresponse` wrapper (stdlib.py lines 85-111).
`realResult` is the outcome of the wrapped `real_getresponse` call.
Note that the wrapper never clears `_sentrysdk_recorder`. -/
def getresponse (conn : Conn) (realResult : Except PyExn HttpResponse) :
    Except PyExn HttpResponse × Conn × List SdkEv :=
  match conn.sentrysdk_recorder with
  | none => (realResult, conn, [SdkEv.realGetresponse])
  | some _ =>
    match realResult with
    | .ok rv =>
      let conn' :=
        match conn.sentrysdk_data_dict with
        | some d => { conn with sentrysdk_data_dict := some (recordResponse d rv) }
        | none => conn
      (.ok rv, conn', [SdkEv.realGetresponse, SdkEv.recorderExitOk])
    | .error e =>
      if isTypeError e then (.error e, conn, [SdkEv.realGetresponse])
      else (.error e, conn, [SdkEv.realGetresponse, SdkEv.recorderExitErr e])

/-- Recorder-exit events (span closes). -/
def isRecorderExit : SdkEv → Bool
  | .recorderExitOk => true
  | .recorderExitErr _ => true
  | _ => false

/-- The number of span closes in a trace. -/
def closeCount (evs : List SdkEv) : Nat := (evs.filter isRecorderExit).length

/-- Claim C3: with instrumentation active, the span is opened before the
unwrapped primitive is invoked (the trace of every active request phase
starts with `recorderEnter` and only then `realPutrequest`); when the
unwrapped call or the header injection raises `e`, the span is closed
with that failure (trace ends in `recorderExitErr e`), the same
exception propagates to the caller, the handle keeps no attached state,
and a response-phase call on that handle is a pure passthrough. -/
theorem putrequest_failure_cleanup (conn : Conn) (method url : String)
    (headers : List (String × String)) (phFail : Nat → Option PyExn)
    (realResult : Except PyExn Unit) (e : PyExn)
    (hfresh : conn.sentrysdk_recorder = none)
    (hfail : realResult = .error e ∨
      (realResult = .ok () ∧ (runPutheadersAux headers 0 phFail).2 = some e)) :
    (∀ res : Except PyExn Unit,
        (putrequest true conn method url res headers phFail).2.2.take 2
          = [SdkEv.recorderEnter (real_url conn.host conn.port conn.default_port url) method,
             SdkEv.realPutrequest]) ∧
    (putrequest true conn method url realResult headers phFail).1 = .error e ∧
    (putrequest true conn method url realResult headers phFail).2.1 = conn ∧
    (putrequest true conn method url realResult headers phFail).2.2.getLast?
      = some (SdkEv.recorderExitErr e) ∧
    ∀ r : Except PyExn HttpResponse,
      getresponse (putrequest true conn method url realResult headers phFail).2.1 r
        = (r, (putrequest true conn method url realResult headers phFail).2.1,
           [SdkEv.realGetresponse]) := by
  have hopen : ∀ res : Except PyExn Unit,
      (putrequest true conn method url res headers phFail).2.2.take 2
        = [SdkEv.recorderEnter (real_url conn.host conn.port conn.default_port url) method,
           SdkEv.realPutrequest] := by
    intro res
    match res with
    | .error e₀ => rfl
    | .ok () =>
      rw [putrequest]
      simp only [Bool.true_eq_false, if_false]
      match hph : (runPutheadersAux headers 0 phFail).2 with
      | some e₀ => simp [hph]
      | none => simp [hph]
  rcases hfail with hre | ⟨hrok, hph⟩
  · subst hre
    refine ⟨hopen, rfl, rfl, rfl, ?_⟩
    intro r
    rw [putrequest]
    simp only [Bool.true_eq_false, if_false]
    rw [getresponse.eq_def, hfresh]
  · subst hrok
    have hshape : putrequest true conn method url (.ok ()) headers phFail
        = (.error e, conn,
           SdkEv.recorderEnter (real_url conn.host conn.port conn.default_port url) method ::
             SdkEv.realPutrequest ::
             ((runPutheadersAux headers 0 phFail).1 ++ [SdkEv.recorderExitErr e])) := by
      rw [putrequest]
      simp only [Bool.true_eq_false, if_false]
      rw [hph]
    refine ⟨hopen, ?_, ?_, ?_, ?_⟩
    · rw [hshape]
    · rw [hshape]
    · rw [hshape]
      show (SdkEv.recorderEnter _ _ :: SdkEv.realPutrequest ::
        ((runPutheadersAux headers 0 phFail).1 ++ [SdkEv.recorderExitErr e])).getLast? = _
      rw [show SdkEv.recorderEnter (real_url conn.host conn.port conn.default_port url) method ::
            SdkEv.realPutrequest ::
            ((runPutheadersAux headers 0 phFail).1 ++ [SdkEv.recorderExitErr e])
          = (SdkEv.recorderEnter (real_url conn.host conn.port conn.default_port url) method ::
              SdkEv.realPutrequest :: (runPutheadersAux headers 0 phFail).1)
            ++ [SdkEv.recorderExitErr e] by simp]
      exact List.getLast?_concat _
    · intro r
      rw [hshape]
      rw [getresponse.eq_def, hfresh]

/-- Witness for C3: the wrapped `putrequest` raises on a fresh handle. -/
theorem putrequest_failure_cleanup_witness :
    ((putrequest true
        { host := "example.com", port := 80, default_port := 80,
          sentrysdk_recorder := none, sentrysdk_data_dict := none }
        "GET" "/path" (.error (.otherExn "boom")) [("sentry-trace", "abc")]
        (fun _ => none)).2.2.take 2
      = [SdkEv.recorderEnter "http://example.com/path" "GET", SdkEv.realPutrequest]) ∧
    (putrequest true
        { host := "example.com", port := 80, default_port := 80,
          sentrysdk_recorder := none, sentrysdk_data_dict := none }
        "GET" "/path" (.error (.otherExn "boom")) [("sentry-trace", "abc")]
        (fun _ => none)).1 = .error (.otherExn "boom") ∧
    (putrequest true
        { host := "example.com", port := 80, default_port := 80,
          sentrysdk_recorder := none, sentrysdk_data_dict := none }
        "GET" "/path" (.error (.otherExn "boom")) [("sentry-trace", "abc")]
        (fun _ => none)).2.2.getLast? = some (SdkEv.recorderExitErr (.otherExn "boom")) ∧
    getresponse (putrequest true
        { host := "example.com", port := 80, default_port := 80,
          sentrysdk_recorder := none, sentrysdk_data_dict := none }
        "GET" "/path" (.error (.otherExn "boom")) [("sentry-trace", "abc")]
        (fun _ => none)).2.1 (.ok { status := 200, reason := "OK" })
      = (.ok { status := 200, reason := "OK" },
         (putrequest true
            { host := "example.com", port := 80, default_port := 80,
              sentrysdk_recorder := none, sentrysdk_data_dict := none }
            "GET" "/path" (.error (.otherExn "boom")) [("sentry-trace", "abc")]
            (fun _ => none)).2.1,
         [SdkEv.realGetresponse]) := by
  have h := putrequest_failure_cleanup
    { host := "example.com", port := 80, default_port := 80,
      sentrysdk_recorder := none, sentrysdk_data_dict := none }
    "GET" "/path" [("sentry-trace", "abc")] (fun _ => none)
    (.error (.otherExn "boom")) (.otherExn "boom") rfl (Or.inl rfl)
  refine ⟨?_, h.2.1, h.2.2.2.1, h.2.2.2.2 (.ok { status := 200, reason := "OK" })⟩
  have h1 := h.1 (.error (.otherExn "boom"))
  rw [h1]
  rw [show real_url "example.com" 80 80 "/path" = "http://example.com/path" by decide]

/-- Claim C4: on a handle carrying an attached recorder, a failure of the
unwrapped `getresponse` closes the span with that failure and re-raises
it, except a `TypeError` (the signature-probe failure python-requests
provokes to test the optional `buffering` parameter) which is re-raised
untouched, with no recorder interaction and the handle unchanged. -/
theorem getresponse_failure_handling (conn : Conn) (e : PyExn)
    (hrec : conn.sentrysdk_recorder = some ()) :
    (isTypeError e = true →
      getresponse conn (.error e) = (.error e, conn, [SdkEv.realGetresponse])) ∧
    (isTypeError e = false →
      getresponse conn (.error e)
        = (.error e, conn, [SdkEv.realGetresponse, SdkEv.recorderExitErr e])) := by
  constructor
  · intro ht
    rw [getresponse, hrec]
    simp [ht]
  · intro ht
    rw [getresponse, hrec]
    simp [ht]

/-- Witness for C4 on a handle with an attached recorder: a signature
probe (`TypeError`) versus an ordinary failure. -/
theorem getresponse_failure_handling_witness :
    (getresponse
        { host := "example.com", port := 80, default_port := 80,
          sentrysdk_recorder := some (), sentrysdk_data_dict := some [] }
        (.error (.typeError "getresponse() got an unexpected keyword argument"))
      = (.error (.typeError "getresponse() got an unexpected keyword argument"),
         { host := "example.com", port := 80, default_port := 80,
           sentrysdk_recorder := some (), sentrysdk_data_dict := some [] },
         [SdkEv.realGetresponse])) ∧
    (getresponse
        { host := "example.com", port := 80, default_port := 80,
          sentrysdk_recorder := some (), sentrysdk_data_dict := some [] }
        (.error (.otherExn "ConnectionReset"))
      = (.error (.otherExn "ConnectionReset"),
         { host := "example.com", port := 80, default_port := 80,
           sentrysdk_recorder := some (), sentrysdk_data_dict := some [] },
         [SdkEv.realGetresponse, SdkEv.recorderExitErr (.otherExn "ConnectionReset")])) :=
  ⟨(getresponse_failure_handling _ _ rfl).1 rfl,
   (getresponse_failure_handling _ _ rfl).2 rfl⟩

theorem lookupVal_dictSet_ne {V : Type} (d : List (String × V)) (k k₁ : String) (v : V)
    (h : k₁ ≠ k) : lookupVal (dictSet d k v) k₁ = lookupVal d k₁ := by
  induction d with
  | nil => simp [Ne.symm h]
  | cons p t ih =>
    by_cases hp : p.1 = k
    · obtain ⟨k₀, v₀⟩ := p
      simp only at hp
      subst hp
      simp [Ne.symm h]
    · simp only [dictSet_cons, if_neg hp, lookupVal_cons]
      by_cases hp₁ : p.1 = k₁
      · simp [hp₁]
      · simp [hp₁, ih]

/-- Claim C6: when the response phase succeeds on a handle carrying an
open span, the response object, its status code and its reason phrase
are recorded into the auxiliary data and the span is closed with a
success outcome (`recorderExitOk`), for every status value. -/
theorem getresponse_success_records (conn : Conn) (d : List (String × DataVal))
    (rv : HttpResponse)
    (hrec : conn.sentrysdk_recorder = some ())
    (hdd : conn.sentrysdk_data_dict = some d) :
    getresponse conn (.ok rv)
      = (.ok rv, { conn with sentrysdk_data_dict := some (recordResponse d rv) },
         [SdkEv.realGetresponse, SdkEv.recorderExitOk]) ∧
    lookupVal (recordResponse d rv) "httplib_response" = some (DataVal.respVal rv) ∧
    lookupVal (recordResponse d rv) "status_code" = some (DataVal.natVal rv.status) ∧
    lookupVal (recordResponse d rv) "reason" = some (DataVal.strVal rv.reason) := by
  refine ⟨?_, ?_, ?_, ?_⟩
  · rw [getresponse, hrec]
    simp only
    rw [hdd]
  · rw [recordResponse]
    rw [lookupVal_dictSet_ne _ _ _ _ (by decide)]
    rw [lookupVal_dictSet_ne _ _ _ _ (by decide)]
    exact lookupVal_dictSet_self _ _ _
  · rw [recordResponse]
    rw [lookupVal_dictSet_ne _ _ _ _ (by decide)]
    exact lookupVal_dictSet_self _ _ _
  · exact lookupVal_dictSet_self _ _ _

/-- Witness for C6 with a 404 response: the 404 is recorded and the span
is still closed with the success outcome. -/
theorem getresponse_success_records_witness :
    getresponse
        { host := "example.com", port := 80, default_port := 80,
          sentrysdk_recorder := some (), sentrysdk_data_dict := some [] }
        (.ok { status := 404, reason := "Not Found" })
      = (.ok { status := 404, reason := "Not Found" },
         { host := "example.com", port := 80, default_port := 80,
           sentrysdk_recorder := some (),
           sentrysdk_data_dict := some (recordResponse [] { status := 404, reason := "Not Found" }) },
         [SdkEv.realGetresponse, SdkEv.recorderExitOk]) ∧
    lookupVal (recordResponse [] { status := 404, reason := "Not Found" }) "status_code"
      = some (DataVal.natVal 404) :=
  ⟨(getresponse_success_records
      { host := "example.com", port := 80, default_port := 80,
        sentrysdk_recorder := some (), sentrysdk_data_dict := some [] }
      [] { status := 404, reason := "Not Found" } rfl rfl).1,
   (getresponse_success_records
      { host := "example.com", port := 80, default_port := 80,
        sentrysdk_recorder := some (), sentrysdk_data_dict := some [] }
      [] { status := 404, reason := "Not Found" } rfl rfl).2.2.1⟩

/-- Claim C5 is violated by the code: `getresponse` closes the recorder
but never clears `_sentrysdk_recorder`, so after a successful
request/response cycle a second `getresponse` call on the same handle
(whose wrapped primitive then raises, e.g. `ResponseNotReady`) closes
the recorder a second time.  This theorem evaluates the model at that
failing input: the handle produced by a successful `putrequest` still
carries the recorder after the first (successful, span-closing)
`getresponse`, and the second `getresponse` emits a second close. -/
theorem getresponse_double_close_bug :
    closeCount
        (getresponse
          (putrequest true
            { host := "example.com", port := 80, default_port := 80,
              sentrysdk_recorder := none, sentrysdk_data_dict := none }
            "GET" "/path" (.ok ()) [("sentry-trace", "abc")] (fun _ => none)).2.1
          (.ok { status := 200, reason := "OK" })).2.2 = 1 ∧
    (getresponse
        (putrequest true
          { host := "example.com", port := 80, default_port := 80,
            sentrysdk_recorder := none, sentrysdk_data_dict := none }
          "GET" "/path" (.ok ()) [("sentry-trace", "abc")] (fun _ => none)).2.1
        (.ok { status := 200, reason := "OK" })).2.1.sentrysdk_recorder = some () ∧
    closeCount
        (getresponse
          (getresponse
            (putrequest true
              { host := "example.com", port := 80, default_port := 80,
                sentrysdk_recorder := none, sentrysdk_data_dict := none }
              "GET" "/path" (.ok ()) [("sentry-trace", "abc")] (fun _ => none)).2.1
            (.ok { status := 200, reason := "OK" })).2.1
          (.error (.otherExn "ResponseNotReady"))).2.2 = 1 := by
  refine ⟨?_, ?_, ?_⟩ <;> rfl

/-! ## Argument extractor

Embedding of `_init_argument` (stdlib.py lines 117-144), generic in the
value type: a Python value is `Option V` with `none` for Python `None`,
positional arguments are a list of such values, keyword arguments a
Python-dict model over them. -/

/-- Embedding of `_init_argument(args, kwargs, name, position,
setdefault_callback=None)`: retrieve (and optionally set a default for)
an argument by either name or position; returns the resolved value with
the updated positional and keyword arguments. -/
def _init_argument {V : Type} (args : List (Option V)) (kwargs : List (String × Option V))
    (name : String) (position : Nat)
    (setdefault_callback : Option (Option V → Option V) := none) :
    Option V × List (Option V) × List (String × Option V) :=
  if containsKey kwargs name then
    let v₀ := (lookupVal kwargs name).getD none
    let rv := match setdefault_callback with
      | some f => f v₀
      | none => v₀
    if rv.isSome then (rv, args, dictSet kwargs name rv) else (rv, args, kwargs)
  else if position < args.length then
    let v₀ := args.getD position none
    let rv := match setdefault_callback with
      | some f => f v₀
      | none => v₀
    if rv.isSome then (rv, args.set position rv, kwargs) else (rv, args, kwargs)
  else
    let rv := match setdefault_callback with
      | some f => f none
      | none => none
    if rv.isSome then (rv, args, dictSet kwargs name rv) else (rv, args, kwargs)

theorem containsKey_of_lookupVal {V : Type} (d : List (String × V)) (k : String) (v : V)
    (h : lookupVal d k = some v) : containsKey d k = true := by
  induction d with
  | nil => simp at h
  | cons p t ih =>
    by_cases hp : p.1 = k
    · simp [hp]
    · simp only [lookupVal_cons, if_neg hp] at h
      simp [hp, ih h]

theorem lookupVal_isSome_of_containsKey {V : Type} (d : List (String × V)) (k : String)
    (h : containsKey d k = true) : ∃ v, lookupVal d k = some v := by
  induction d with
  | nil => simp at h
  | cons p t ih =>
    by_cases hp : p.1 = k
    · exact ⟨p.2, by simp [hp]⟩
    · simp only [containsKey_cons, if_neg hp] at h
      obtain ⟨v, hv⟩ := ih h
      exact ⟨v, by simp [hp, hv]⟩

theorem list_set_getD_self {α : Type} (l : List α) (p : Nat) (d : α) (h : p < l.length) :
    l.set p (l.getD p d) = l := by
  induction l generalizing p with
  | nil => simp at h
  | cons a t ih =>
    cases p with
    | zero => rw [List.getD_cons_zero]; rfl
    | succ n =>
      simp only [List.length_cons, Nat.succ_lt_succ_iff] at h
      rw [List.getD_cons_succ]
      show a :: t.set n (t.getD n d) = a :: t
      rw [ih n h]

/-- Argument extraction with no callback mutates nothing: the returned
positional and keyword arguments equal the originals (the write-backs
on the present branches rewrite the already-stored value). -/
theorem init_argument_readonly {V : Type} (args : List (Option V))
    (kwargs : List (String × Option V)) (name : String) (position : Nat) :
    ∃ rv, _init_argument args kwargs name position none = (rv, args, kwargs) := by
  rw [_init_argument]
  by_cases hk : containsKey kwargs name
  · obtain ⟨v, hv⟩ := lookupVal_isSome_of_containsKey kwargs name hk
    refine ⟨v, ?_⟩
    rw [if_pos hk]
    simp only [hv, Option.getD_some]
    by_cases hs : v.isSome
    · simp only [hs, if_true]
      rw [dictSet_lookup_self _ _ _ hv]
    · simp [hs]
  · rw [if_neg hk]
    by_cases hp : position < args.length
    · refine ⟨args.getD position none, ?_⟩
      rw [if_pos hp]
      by_cases hs : (args.getD position none).isSome
      · simp only [hs, if_true]
        rw [list_set_getD_self args position none hp]
      · rw [if_neg hs]
    · refine ⟨none, ?_⟩
      rw [if_neg hp]
      simp

/-- Claim C8: for every call shape the extractor returns the resolved
value and applies the read/replace/write-back semantics: a keyword
argument is replaced by `default_fn(current)` and written back only if
the result is not `None`; a positional argument likewise in its slot; an
absent argument gets `default_fn(None)` appended as a new keyword
argument only if not `None`; absence with no default function leaves
both `args` and `kwargs` unchanged and resolves to `None`. -/
theorem init_argument_spec {V : Type} (args : List (Option V))
    (kwargs : List (String × Option V)) (name : String) (position : Nat)
    (f : Option V → Option V) :
    (∀ v₀, lookupVal kwargs name = some v₀ →
      _init_argument args kwargs name position (some f)
        = if (f v₀).isSome then (f v₀, args, dictSet kwargs name (f v₀))
          else (f v₀, args, kwargs)) ∧
    (containsKey kwargs name = false → position < args.length →
      _init_argument args kwargs name position (some f)
        = if (f (args.getD position none)).isSome
          then (f (args.getD position none),
                args.set position (f (args.getD position none)), kwargs)
          else (f (args.getD position none), args, kwargs)) ∧
    (containsKey kwargs name = false → args.length ≤ position →
      _init_argument args kwargs name position (some f)
        = if (f none).isSome then (f none, args, kwargs ++ [(name, f none)])
          else (f none, args, kwargs)) ∧
    (containsKey kwargs name = false → args.length ≤ position →
      _init_argument args kwargs name position none = (none, args, kwargs)) := by
  refine ⟨?_, ?_, ?_, ?_⟩
  · intro v₀ hv
    rw [_init_argument, if_pos (containsKey_of_lookupVal _ _ _ hv)]
    simp only [hv, Option.getD_some]
  · intro hk h
    rw [_init_argument, if_neg (by simp [hk]), if_pos h]
  · intro hk h
    rw [_init_argument, if_neg (by simp [hk]), if_neg (by omega)]
    show (if (f none).isSome = true then (f none, args, dictSet kwargs name (f none))
        else (f none, args, kwargs))
      = if (f none).isSome = true then (f none, args, kwargs ++ [(name, f none)])
        else (f none, args, kwargs)
    rw [dictSet_absent _ _ _ hk]
  · intro hk h
    rw [_init_argument, if_neg (by simp [hk]), if_neg (by omega)]
    simp

/-- Witness for C8 over `V = String`, exercising all four shapes with
the callback `fun v => some (v.getD "D")`. -/
theorem init_argument_spec_witness :
    (_init_argument (V := String) [] [("env", some "x")] "env" 10
        (some fun v => some (v.getD "D"))
      = (some "x", [], [("env", some "x")])) ∧
    (_init_argument (V := String) [some "a"] [] "cwd" 0
        (some fun v => some (v.getD "D"))
      = (some "a", [some "a"], [])) ∧
    (_init_argument (V := String) [] [] "env" 10 (some fun v => some (v.getD "D"))
      = (some "D", [], [("env", some "D")])) ∧
    (_init_argument (V := String) [] [] "env" 10 none = (none, [], [])) :=
  ⟨(init_argument_spec [] [("env", some "x")] "env" 10 (fun v => some (v.getD "D"))).1
      (some "x") rfl,
   (init_argument_spec [some "a"] [] "cwd" 0 (fun v => some (v.getD "D"))).2.1
      rfl (by decide),
   (init_argument_spec [] [] "env" 10 (fun v => some (v.getD "D"))).2.2.1
      rfl (by decide),
   (init_argument_spec [] [] "env" 10 (fun v => some (v.getD "D"))).2.2.2
      rfl (by decide)⟩

/-! ## Process-spawn interceptor

Embedding of `sentry_patched_popen_init` (stdlib.py lines 150-187).
The Popen call arguments are modelled with a small Python value type;
`env` arguments are string-to-string dict models.  `os.environ` is an
input of the model and is only ever read (via the lazy
`dict(x or os.environ)` default callback); the result carries it
through unchanged to make that frame condition explicit. -/

/-- Python values appearing among `Popen` arguments. -/
inductive PopenVal where
  | vstr (s : String)
  | vlist (l : List String)
  | vtuple (l : List String)
  | vdict (d : List (String × String))
  | vother (tag : String)
deriving DecidableEq

/-- Python truthiness of a `Popen` argument value. -/
def pyTruthy : Option PopenVal → Bool
  | none => false
  | some (.vstr s) => !s.isEmpty
  | some (.vlist l) => !l.isEmpty
  | some (.vtuple l) => !l.isEmpty
  | some (.vdict d) => !d.isEmpty
  | some (.vother _) => true

/-- The lazy env default `lambda x: dict(x or os.environ)` (line 181):
a falsy `x` (absent/None/empty mapping) copies `os.environ`, a
non-empty caller mapping is copied as is.  (Legal `env` arguments are a
mapping or `None`.) -/
def envCallback (environ : List (String × String)) (x : Option PopenVal) : Option PopenVal :=
  match x with
  | some (.vdict d) => if d.isEmpty then some (.vdict environ) else some (.vdict d)
  | _ => some (.vdict environ)

/-- Model of `safe_repr` (imported from `sentry_sdk.utils`, not in
src/): a total structural representation used only for the span
description. -/
def safeRepr : PopenVal → String
  | .vstr s => s
  | .vlist _ => "<list>"
  | .vtuple _ => "<tuple>"
  | .vdict _ => "<dict>"
  | .vother t => "<" ++ t ++ ">"

/-- The `args or []` coercion of line 158. -/
def pyOrEmptyList (x : Option PopenVal) : PopenVal :=
  if pyTruthy x then x.getD (.vlist []) else .vlist []

/-- The span description of lines 168-175: a space-joined rendering for
short lists/tuples, else the safe structural representation. -/
def popenDescription (args : PopenVal) : String :=
  match args with
  | .vlist l => if l.length < 100 then " ".intercalate l else safeRepr args
  | .vtuple l => if l.length < 100 then " ".intercalate l else safeRepr args
  | _ => safeRepr args

/-- One assignment `env["SUBPROCESS_..."] = v` (line 182): the injected
variable goes into the dict stored at the position `_init_argument`
placed it — the `env` keyword slot if present, else positional slot 10. -/
def setEnvEntry (a : List (Option PopenVal)) (kw : List (String × Option PopenVal))
    (key val : String) :
    List (Option PopenVal) × List (String × Option PopenVal) :=
  if containsKey kw "env" then
    match lookupVal kw "env" with
    | some (some (.vdict d)) => (a, dictSet kw "env" (some (.vdict (dictSet d key val))))
    | _ => (a, kw)
  else if 10 < a.length then
    match a.getD 10 none with
    | some (.vdict d) => (a.set 10 (some (.vdict (dictSet d key val))), kw)
    | _ => (a, kw)
  else (a, kw)

/-- The header-injection loop of lines 177-182: on the first header the
`env` argument is materialized through `_init_argument` with the lazy
default, every header is then written into that dict. -/
def injectEnvAux (environ : List (String × String)) :
    List (String × String) → Bool → List (Option PopenVal) →
    List (String × Option PopenVal) →
    List (Option PopenVal) × List (String × Option PopenVal)
  | [], _, a, kw => (a, kw)
  | kv :: t, false, a, kw =>
    let r := _init_argument a kw "env" 10 (some (envCallback environ))
    let p := setEnvEntry r.2.1 r.2.2 (subprocessEnvName kv.1) kv.2
    injectEnvAux environ t true p.1 p.2
  | kv :: t, true, a, kw =>
    let p := setEnvEntry a kw (subprocessEnvName kv.1) kv.2
    injectEnvAux environ t true p.1 p.2

/-- The result of the patched constructor: the argument vectors handed
to `old_popen_init`, the span description and cwd datum, and the
(read-only) process environment after the call. -/
structure PopenResult where
  a : List (Option PopenVal)
  kw : List (String × Option PopenVal)
  description : String
  cwd : Option PopenVal
  environAfter : List (String × String)
  instrumented : Bool
deriving DecidableEq

/-- Embedding of `sentry_patched_popen_init` (stdlib.py lines 150-187).
`headers` is `hub.iter_trace_propagation_headers()`; `environ` is
`os.environ`. -/
def sentry_patched_popen_init (active : Bool) (a₀ : List (Option PopenVal))
    (kw₀ : List (String × Option PopenVal)) (headers : List (String × String))
    (environ : List (String × String)) : PopenResult :=
  if active = false then
    { a := a₀, kw := kw₀, description := "", cwd := none, environAfter := environ,
      instrumented := false }
  else
    let r₁ := _init_argument a₀ kw₀ "args" 0
    let r₂ := _init_argument r₁.2.1 r₁.2.2 "cwd" 9
    let p := injectEnvAux environ headers false r₂.2.1 r₂.2.2
    { a := p.1, kw := p.2,
      description := popenDescription (pyOrEmptyList r₁.1),
      cwd := r₂.1, environAfter := environ, instrumented := true }

/-- All headers written into an env dict, in order (`injectAll H d` is
the dict after the loop body ran for every header of `H`). -/
def injectAll (headers : List (String × String)) (d : List (String × String)) :
    List (String × String) :=
  headers.foldl (fun acc kv => dictSet acc (subprocessEnvName kv.1) kv.2) d

theorem setEnvEntry_kw (a : List (Option PopenVal)) (kw : List (String × Option PopenVal))
    (d : List (String × String)) (key val : String)
    (h : lookupVal kw "env" = some (some (.vdict d))) :
    setEnvEntry a kw key val = (a, dictSet kw "env" (some (.vdict (dictSet d key val)))) := by
  rw [setEnvEntry, if_pos (containsKey_of_lookupVal _ _ _ h), h]

theorem injectEnvAux_materialized (environ : List (String × String))
    (t : List (String × String)) (a : List (Option PopenVal))
    (kw : List (String × Option PopenVal)) (d : List (String × String))
    (h : lookupVal kw "env" = some (some (.vdict d))) :
    injectEnvAux environ t true a kw
      = (a, dictSet kw "env" (some (.vdict (injectAll t d)))) := by
  induction t generalizing kw d with
  | nil =>
    rw [injectEnvAux, injectAll, List.foldl_nil, dictSet_lookup_self _ _ _ h]
  | cons kv t ih =>
    rw [injectEnvAux]
    rw [setEnvEntry_kw a kw d _ _ h]
    rw [ih _ _ (lookupVal_dictSet_self _ _ _)]
    rw [dictSet_dictSet]
    simp only [injectAll, List.foldl_cons]

/-- Claim C7: the process-spawn interceptor (a) always leaves the parent
environment untouched; (b) with zero propagation headers leaves the
caller's argument vectors exactly as supplied (no implicit `env`
introduced); (c) with at least one header and a caller-supplied
non-empty `env` mapping, only that slot is replaced, by a copy of the
caller's mapping with every header injected; (d) with at least one
header and no `env` argument at all, a fresh keyword argument `env` is
appended holding a copy of the process environment with every header
injected, everything else unchanged. -/
theorem popen_env_injection (a₀ : List (Option PopenVal))
    (kw₀ : List (String × Option PopenVal)) (headers environ : List (String × String)) :
    (∀ active, (sentry_patched_popen_init active a₀ kw₀ headers environ).environAfter
        = environ) ∧
    (headers = [] →
      (sentry_patched_popen_init true a₀ kw₀ headers environ).a = a₀ ∧
      (sentry_patched_popen_init true a₀ kw₀ headers environ).kw = kw₀) ∧
    (∀ d, headers ≠ [] → lookupVal kw₀ "env" = some (some (.vdict d)) → d ≠ [] →
      (sentry_patched_popen_init true a₀ kw₀ headers environ).a = a₀ ∧
      (sentry_patched_popen_init true a₀ kw₀ headers environ).kw
        = dictSet kw₀ "env" (some (.vdict (injectAll headers d)))) ∧
    (headers ≠ [] → containsKey kw₀ "env" = false → a₀.length ≤ 10 →
      (sentry_patched_popen_init true a₀ kw₀ headers environ).a = a₀ ∧
      (sentry_patched_popen_init true a₀ kw₀ headers environ).kw
        = kw₀ ++ [("env", some (.vdict (injectAll headers environ)))]) := by
  obtain ⟨rv₁, hr₁⟩ := init_argument_readonly a₀ kw₀ "args" 0
  obtain ⟨rv₂, hr₂⟩ := init_argument_readonly a₀ kw₀ "cwd" 9
  have hunfold : sentry_patched_popen_init true a₀ kw₀ headers environ
      = { a := (injectEnvAux environ headers false a₀ kw₀).1,
          kw := (injectEnvAux environ headers false a₀ kw₀).2,
          description := popenDescription (pyOrEmptyList rv₁),
          cwd := rv₂, environAfter := environ, instrumented := true } := by
    rw [sentry_patched_popen_init]
    simp only [Bool.true_eq_false, if_false]
    rw [hr₁]
    simp only
    rw [hr₂]
  refine ⟨?_, ?_, ?_, ?_⟩
  · intro active
    match active with
    | false => rfl
    | true => rw [hunfold]
  · intro hh
    subst hh
    rw [hunfold]
    exact ⟨rfl, rfl⟩
  · intro d hh henv hd
    match headers with
    | [] => exact absurd rfl hh
    | kv :: t =>
      rw [hunfold]
      have hmat : injectEnvAux environ (kv :: t) false a₀ kw₀
          = (a₀, dictSet kw₀ "env" (some (.vdict (injectAll (kv :: t) d)))) := by
        rw [injectEnvAux]
        have hcb : _init_argument a₀ kw₀ "env" 10 (some (envCallback environ))
            = (some (.vdict d), a₀, kw₀) := by
          rw [_init_argument, if_pos (containsKey_of_lookupVal _ _ _ henv)]
          simp only [henv, Option.getD_some]
          show (if (envCallback environ (some (.vdict d))).isSome = true
              then (envCallback environ (some (.vdict d)), a₀,
                    dictSet kw₀ "env" (envCallback environ (some (.vdict d))))
              else (envCallback environ (some (.vdict d)), a₀, kw₀))
            = (some (.vdict d), a₀, kw₀)
          rw [show envCallback environ (some (.vdict d)) = some (.vdict d) by
            rw [envCallback]
            rw [if_neg (by simp [List.isEmpty_iff, hd])]]
          simp only [Option.isSome_some, if_true]
          rw [dictSet_lookup_self _ _ _ henv]
        rw [hcb]
        simp only
        rw [setEnvEntry_kw a₀ kw₀ d _ _ henv]
        rw [injectEnvAux_materialized environ t a₀ _ _ (lookupVal_dictSet_self _ _ _)]
        rw [dictSet_dictSet]
        simp only [injectAll, List.foldl_cons]
      rw [hmat]
      exact ⟨rfl, rfl⟩
  · intro hh hnoenv hlen
    match headers with
    | [] => exact absurd rfl hh
    | kv :: t =>
      rw [hunfold]
      have hmat : injectEnvAux environ (kv :: t) false a₀ kw₀
          = (a₀, kw₀ ++ [("env", some (.vdict (injectAll (kv :: t) environ)))]) := by
        rw [injectEnvAux]
        have hcb : _init_argument a₀ kw₀ "env" 10 (some (envCallback environ))
            = (some (.vdict environ), a₀, kw₀ ++ [("env", some (.vdict environ))]) := by
          rw [_init_argument, if_neg (by simp [hnoenv]), if_neg (by omega)]
          show (if (envCallback environ none).isSome = true
              then (envCallback environ none, a₀, dictSet kw₀ "env" (envCallback environ none))
              else (envCallback environ none, a₀, kw₀))
            = (some (.vdict environ), a₀, kw₀ ++ [("env", some (.vdict environ))])
          rw [show envCallback environ none = some (.vdict environ) from rfl]
          simp only [Option.isSome_some, if_true]
          rw [dictSet_absent _ _ _ hnoenv]
        rw [hcb]
        simp only
        rw [setEnvEntry_kw a₀ _ environ _ _ (lookupVal_append_fresh _ _ _ hnoenv)]
        rw [dictSet_append_fresh _ _ _ _ hnoenv]
        rw [injectEnvAux_materialized environ t a₀ _ _
          (lookupVal_append_fresh _ _ _ hnoenv)]
        rw [dictSet_append_fresh _ _ _ _ hnoenv]
        simp only [injectAll, List.foldl_cons]
      rw [hmat]
      exact ⟨rfl, rfl⟩

/-- Witness for C7: the spec scenario — `args=["ls","-la"]`, no `env`
supplied, one active header `sentry-trace: abc`, process environment
`PATH=/bin`: the child gets an appended `env` copy carrying
`SUBPROCESS_SENTRY_TRACE=abc`, and with zero headers nothing changes. -/
theorem popen_env_injection_witness :
    (sentry_patched_popen_init true [some (.vlist ["ls", "-la"])] []
        [("sentry-trace", "abc")] [("PATH", "/bin")]).environAfter = [("PATH", "/bin")] ∧
    ((sentry_patched_popen_init true [some (.vlist ["ls", "-la"])] [] []
        [("PATH", "/bin")]).a = [some (.vlist ["ls", "-la"])] ∧
     (sentry_patched_popen_init true [some (.vlist ["ls", "-la"])] [] []
        [("PATH", "/bin")]).kw = []) ∧
    ((sentry_patched_popen_init true [some (.vlist ["ls", "-la"])] []
        [("sentry-trace", "abc")] [("PATH", "/bin")]).a = [some (.vlist ["ls", "-la"])] ∧
     (sentry_patched_popen_init true [some (.vlist ["ls", "-la"])] []
        [("sentry-trace", "abc")] [("PATH", "/bin")]).kw
       = [("env", some (.vdict [("PATH", "/bin"), ("SUBPROCESS_SENTRY_TRACE", "abc")]))]) :=
  ⟨(popen_env_injection [some (.vlist ["ls", "-la"])] [] [("sentry-trace", "abc")]
      [("PATH", "/bin")]).1 true,
   (popen_env_injection [some (.vlist ["ls", "-la"])] [] [] [("PATH", "/bin")]).2.1 rfl,
   (popen_env_injection [some (.vlist ["ls", "-la"])] [] [("sentry-trace", "abc")]
      [("PATH", "/bin")]).2.2.2 (by decide) rfl (by decide)⟩

/-! ## Runtime metadata event processor

Embedding of `add_python_runtime_context` (stdlib.py lines 35-42) and
the module-level `_RUNTIME_CONTEXT` constant (lines 19-23).  The
interpreter identification is opaque to this code; the constant is a
parameter of the model, computed once and passed unchanged to every
invocation. -/

/-- The fixed runtime descriptor `_RUNTIME_CONTEXT`: implementation
name, three-part version, full build string. -/
structure RuntimeContext where
  name : String
  version : String
  build : String
deriving DecidableEq

/-- A value stored in an event's `contexts` mapping. -/
inductive CtxEntry where
  | runtimeCtx (r : RuntimeContext)
  | otherCtx (tag : String)
deriving DecidableEq

/-- The value found under the `"contexts"` key of an event: a dict, or
something that is not a dict (the `isinstance(contexts, dict)` guard). -/
inductive CtxsVal where
  | ctxDict (d : List (String × CtxEntry))
  | ctxOther (tag : String)
deriving DecidableEq

/-- An outgoing telemetry event: its optional `"contexts"` entry plus an
opaque stand-in for every other field. -/
structure TelemetryEvent where
  contexts : Option CtxsVal
  payload : String
deriving DecidableEq

/-- Embedding of the event processor `add_python_runtime_context`:
when the integration is active, `event.setdefault("contexts", {})`,
and if the result is a dict without a `"runtime"` key, store the
module-load descriptor `rt` under `"runtime"`. -/
def add_python_runtime_context (rt : RuntimeContext) (active : Bool)
    (event : TelemetryEvent) : TelemetryEvent :=
  if active then
    match event.contexts with
    | none =>
      { event with contexts := some (.ctxDict [("runtime", .runtimeCtx rt)]) }
    | some (.ctxDict d) =>
      if containsKey d "runtime" then event
      else { event with contexts := some (.ctxDict (d ++ [("runtime", .runtimeCtx rt)])) }
    | some (.ctxOther _) => event
  else event

/-- Claim C9: the transform inserts the fixed `runtime` descriptor only
when the integration is active and the contexts mapping has no
`"runtime"` key yet; the insertion appends to the existing mapping
(never removing or overwriting a key, and leaving every other event
field alone), the inserted descriptor is the one module-load constant
for every event, and in all other situations the event is returned
unchanged. -/
theorem add_python_runtime_context_spec (rt : RuntimeContext) (event : TelemetryEvent) :
    (add_python_runtime_context rt false event = event) ∧
    (∀ d, event.contexts = some (.ctxDict d) → containsKey d "runtime" = true →
      add_python_runtime_context rt true event = event) ∧
    (∀ d, event.contexts = some (.ctxDict d) → containsKey d "runtime" = false →
      add_python_runtime_context rt true event
        = { event with contexts := some (.ctxDict (d ++ [("runtime", .runtimeCtx rt)])) }) ∧
    (event.contexts = none →
      add_python_runtime_context rt true event
        = { event with contexts := some (.ctxDict [("runtime", .runtimeCtx rt)]) }) ∧
    (∀ tag, event.contexts = some (.ctxOther tag) →
      add_python_runtime_context rt true event = event) := by
  refine ⟨rfl, ?_, ?_, ?_, ?_⟩
  · intro d hc hr
    rw [add_python_runtime_context, if_pos rfl, hc]
    simp only [hr, if_true]
  · intro d hc hr
    rw [add_python_runtime_context, if_pos rfl, hc]
    simp only [hr, Bool.false_eq_true, if_false]
  · intro hc
    rw [add_python_runtime_context, if_pos rfl, hc]
  · intro tag hc
    rw [add_python_runtime_context, if_pos rfl, hc]

/-- Witness for C9 with a concrete descriptor and events covering the
insert and already-present cases. -/
theorem add_python_runtime_context_spec_witness :
    (add_python_runtime_context
        { name := "CPython", version := "3.8.0", build := "3.8.0 (default)" } true
        { contexts := some (.ctxDict [("os", .otherCtx "linux")]), payload := "p" }
      = { contexts := some (.ctxDict
            [("os", .otherCtx "linux"),
             ("runtime", .runtimeCtx
               { name := "CPython", version := "3.8.0", build := "3.8.0 (default)" })]),
          payload := "p" }) ∧
    (add_python_runtime_context
        { name := "CPython", version := "3.8.0", build := "3.8.0 (default)" } true
        { contexts := some (.ctxDict [("runtime", .otherCtx "preexisting")]), payload := "p" }
      = { contexts := some (.ctxDict [("runtime", .otherCtx "preexisting")]), payload := "p" }) ∧
    (add_python_runtime_context
        { name := "CPython", version := "3.8.0", build := "3.8.0 (default)" } false
        { contexts := none, payload := "p" }
      = { contexts := none, payload := "p" }) :=
  ⟨(add_python_runtime_context_spec
      { name := "CPython", version := "3.8.0", build := "3.8.0 (default)" }
      { contexts := some (.ctxDict [("os", .otherCtx "linux")]), payload := "p" }).2.2.1
      [("os", .otherCtx "linux")] rfl rfl,
   (add_python_runtime_context_spec
      { name := "CPython", version := "3.8.0", build := "3.8.0 (default)" }
      { contexts := some (.ctxDict [("runtime", .otherCtx "preexisting")]), payload := "p" }).2.1
      [("runtime", .otherCtx "preexisting")] rfl rfl,
   (add_python_runtime_context_spec
      { name := "CPython", version := "3.8.0", build := "3.8.0 (default)" }
      { contexts := none, payload := "p" }).1⟩

end SentryStdlib
